import Mathlib

/-!
Shallow embedding of the x402 GIF generator service.

The repository has two variants of the `POST /api/generate` route handler:
a single-result variant (one keyword strategy, one Giphy search, one ranked
pick) and a multi-strategy variant (three perspective-tagged strategies,
three concurrent Giphy searches, three concurrent ranked picks).  Both are
thin orchestrations over three external collaborators: a payment-settlement
facilitator, an LLM structured-generation service, and the Giphy search API.

Each external collaborator is modelled as an oracle input to a pure handler
function.  The handler returns the HTTP response it would produce together
with a trace of the outbound network calls it performed, in the order they
were issued, so that claims about "no network call was attempted" are
statable.
-/

/-- A JavaScript value, restricted to what the `text` field extraction needs.
`undef` models an absent property after destructuring. -/
inductive JsVal
  | undef
  | nul
  | boolean (b : Bool)
  | number (n : Int)
  | strVal (s : String)
  | object
deriving Repr, DecidableEq

/-- JavaScript truthiness test, negated: `!v` in the source. -/
def jsFalsy : JsVal → Bool
  | .undef => true
  | .nul => true
  | .boolean b => !b
  | .number n => n == 0
  | .strVal s => s == ""
  | .object => false

/-- Whether the value is a JS string (`typeof text === "string"`). -/
def isStringVal : JsVal → Bool
  | .strVal _ => true
  | _ => false

/-- The guard `!text || typeof text !== "string"` from both route handlers. -/
def textInvalid (v : JsVal) : Bool :=
  jsFalsy v || !(isStringVal v)

/-- Result of `settlePayment` (thirdweb x402 facilitator).  The body is
opaque to the handler and forwarded verbatim on non-200. -/
structure PaymentResult where
  status : Nat
  responseBody : String
  responseHeaders : List (String × String)
deriving Repr, DecidableEq

/-- Output of the single-result keyword LLM call, validated against
`keywordsSchema` (1-3 keywords, nullable topic). -/
structure KeywordsResult where
  keywords : List String
  topic : Option String
  reasoning : String
deriving Repr, DecidableEq

/-- The fixed perspective enumeration of the multi-strategy variant. -/
inductive Perspective
  | emotional
  | literal
  | sarcastic
deriving Repr, DecidableEq

/-- One search strategy from `strategiesSchema` (multi-strategy variant). -/
structure Strategy where
  keywords : List String
  topic : Option String
  perspective : Perspective
  reasoning : String
deriving Repr, DecidableEq

/-- Output of the strategies LLM call.  The zod schema fixes the array
length to exactly 3, so the validated value is a triple. -/
structure StrategiesResult where
  s0 : Strategy
  s1 : Strategy
  s2 : Strategy
deriving Repr, DecidableEq

/-- Output of the GIF-selection LLM call, validated against
`selectionSchema` (`selectedIndex` a non-negative integer). -/
structure Selection where
  selectedIndex : Nat
  reasoning : String
deriving Repr, DecidableEq

/-- One Giphy candidate record, as the handlers read it
(`title`, `alt_text`, `images.original.url`). -/
structure GiphyGif where
  title : String
  alt_text : Option String
  images_original_url : String
deriving Repr, DecidableEq

/-- Outcome of one `fetch` to the Giphy search API.
`thrown` covers a rejected fetch or a `response.json()` failure;
`notOk` is a completed response with `response.ok` false;
`okData d` is a parsed body whose `data` field is `d`
(`none` when absent or null). -/
inductive GiphyFetchOutcome
  | thrown
  | notOk
  | okData (data : Option (List GiphyGif))
deriving Repr, DecidableEq

/-- Flat result object of the single-result variant's 200 response. -/
structure SingleGifResult where
  url : String
  keywords : List String
  topic : Option String
  reasoning : String
  title : String
deriving Repr, DecidableEq

/-- One entry of the multi-strategy variant's 200 response, tagged with
the strategy's perspective. -/
structure MultiGifResult where
  url : String
  keywords : List String
  topic : Option String
  reasoning : String
  title : String
  perspective : Perspective
deriving Repr, DecidableEq

/-- Body of an HTTP response produced by either handler. -/
inductive ResponseBody
  | errObj (msg : String)
  | passthrough (raw : String)
  | singleGif (r : SingleGifResult)
  | multiGifs (rs : List MultiGifResult)
deriving Repr, DecidableEq

/-- An HTTP response: status, JSON body, and extra headers. -/
structure HttpResponse where
  status : Nat
  body : ResponseBody
  headers : List (String × String)
deriving Repr, DecidableEq

/-- One outbound network call made by a handler. -/
inductive CallEvent
  | llm
  | giphySearch (q : String)
deriving Repr, DecidableEq

/-- `Response.json({ error: msg }, { status })`. -/
def jsonError (msg : String) (status : Nat) : HttpResponse :=
  { status := status, body := .errObj msg, headers := [] }

def textRequiredMsg : String := "Text input is required"

def giphyKeyMsg : String := "Giphy API key not configured"

def giphyFetchFailMsg : String := "Failed to fetch from Giphy"

def noGifMsg : String := "No GIF found"

def noGifsMsg : String := "No GIFs found"

def genericFailMsg : String := "Failed to generate GIF recommendation"

/-- Query construction shared by both handlers:
`topic ? keywords.join(" ") + " " + topic : keywords.join(" ")`.
Note the JS conditional tests truthiness, so an empty-string topic is
omitted exactly like a null one. -/
def buildSearchQuery (keywords : List String) (topic : Option String) : String :=
  let reactionKeywords := String.intercalate " " keywords
  match topic with
  | some t => if t == "" then reactionKeywords else reactionKeywords ++ " " ++ t
  | none => reactionKeywords

/-- `gifs[selection.selectedIndex] || gifs[0]` on a non-empty candidate
list `g :: gs`: an in-range index picks that candidate, an out-of-range
index yields `undefined`, which falls back to the first candidate. -/
def selectCandidate (g : GiphyGif) (gs : List GiphyGif) (idx : Nat) : GiphyGif :=
  ((g :: gs).get? idx).getD g

/-- Oracle inputs for one request to the single-result handler.
`bodyParse` is the `text` property of `await request.json()`
(`.error` when the body is not valid JSON). -/
structure SingleOracles where
  payment : PaymentResult
  bodyParse : Except Unit JsVal
  keywordsCall : Except Unit KeywordsResult
  giphyFetch : GiphyFetchOutcome
  selectionCall : Except Unit Selection

/-- The single-result `POST` handler (route variant of `part_001`),
returning the response and the trace of outbound network calls. -/
def singlePOST (giphyApiKey : Option String) (o : SingleOracles) :
    HttpResponse × List CallEvent :=
  if o.payment.status ≠ 200 then
    ({ status := o.payment.status, body := .passthrough o.payment.responseBody,
       headers := o.payment.responseHeaders }, [])
  else
    match o.bodyParse with
    | .error _ => (jsonError genericFailMsg 500, [])
    | .ok text =>
      if textInvalid text then
        (jsonError textRequiredMsg 400, [])
      else
        match o.keywordsCall with
        | .error _ => (jsonError genericFailMsg 500, [CallEvent.llm])
        | .ok object =>
          let searchQuery := buildSearchQuery object.keywords object.topic
          match giphyApiKey with
          | none => (jsonError giphyKeyMsg 500, [CallEvent.llm])
          | some _ =>
            match o.giphyFetch with
            | .thrown =>
              (jsonError genericFailMsg 500,
               [CallEvent.llm, CallEvent.giphySearch searchQuery])
            | .notOk =>
              (jsonError giphyFetchFailMsg 500,
               [CallEvent.llm, CallEvent.giphySearch searchQuery])
            | .okData data =>
              match data with
              | none =>
                (jsonError noGifMsg 404,
                 [CallEvent.llm, CallEvent.giphySearch searchQuery])
              | some [] =>
                (jsonError noGifMsg 404,
                 [CallEvent.llm, CallEvent.giphySearch searchQuery])
              | some (g :: gs) =>
                match o.selectionCall with
                | .error _ =>
                  (jsonError genericFailMsg 500,
                   [CallEvent.llm, CallEvent.giphySearch searchQuery,
                    CallEvent.llm])
                | .ok selection =>
                  let selectedGif := selectCandidate g gs selection.selectedIndex
                  ({ status := 200,
                     body := .singleGif
                       { url := selectedGif.images_original_url,
                         keywords := object.keywords,
                         topic := object.topic,
                         reasoning := selection.reasoning,
                         title := selectedGif.title },
                     headers := [] },
                   [CallEvent.llm, CallEvent.giphySearch searchQuery,
                    CallEvent.llm])

/-- Oracle inputs for one request to the multi-strategy handler. -/
structure MultiOracles where
  payment : PaymentResult
  bodyParse : Except Unit JsVal
  strategiesCall : Except Unit StrategiesResult
  search0 : GiphyFetchOutcome
  search1 : GiphyFetchOutcome
  search2 : GiphyFetchOutcome
  selection0 : Except Unit Selection
  selection1 : Except Unit Selection
  selection2 : Except Unit Selection

/-- The per-strategy search mapper of the multi-strategy variant:
a non-ok response degrades to `gifs: []`, a parsed body yields
`data.data || []`, and a rejected fetch propagates as a thrown error. -/
def searchStage : GiphyFetchOutcome → Except Unit (List GiphyGif)
  | .thrown => .error ()
  | .notOk => .ok []
  | .okData data => .ok (data.getD [])

/-- The per-strategy selection mapper of the multi-strategy variant:
an empty candidate list yields `null` without calling the ranking model;
otherwise the selection call either throws or produces one tagged result. -/
def rankResult (strategy : Strategy) (gifs : List GiphyGif)
    (sel : Except Unit Selection) : Except Unit (Option MultiGifResult) :=
  match gifs with
  | [] => .ok none
  | g :: gs =>
    match sel with
    | .error e => .error e
    | .ok selection =>
      let selectedGif := selectCandidate g gs selection.selectedIndex
      .ok (some
        { url := selectedGif.images_original_url,
          keywords := strategy.keywords,
          topic := strategy.topic,
          reasoning := selection.reasoning,
          title := selectedGif.title,
          perspective := strategy.perspective })

/-- Network calls issued by one selection mapper: one LLM call when the
candidate list is non-empty, none otherwise. -/
def rankEvents (gifs : List GiphyGif) : List CallEvent :=
  match gifs with
  | [] => []
  | _ :: _ => [CallEvent.llm]

/-- The multi-strategy `POST` handler (route variant of `part_002`),
returning the response and the trace of outbound network calls.  The
three searches are issued concurrently behind a join barrier, so all
three search events occur even when one of them throws; the selection
stage starts only after all searches complete. -/
def multiPOST (giphyApiKey : Option String) (o : MultiOracles) :
    HttpResponse × List CallEvent :=
  if o.payment.status ≠ 200 then
    ({ status := o.payment.status, body := .passthrough o.payment.responseBody,
       headers := o.payment.responseHeaders }, [])
  else
    match o.bodyParse with
    | .error _ => (jsonError genericFailMsg 500, [])
    | .ok text =>
      if textInvalid text then
        (jsonError textRequiredMsg 400, [])
      else
        match giphyApiKey with
        | none => (jsonError giphyKeyMsg 500, [])
        | some _ =>
          match o.strategiesCall with
          | .error _ => (jsonError genericFailMsg 500, [CallEvent.llm])
          | .ok strats =>
            let q0 := buildSearchQuery strats.s0.keywords strats.s0.topic
            let q1 := buildSearchQuery strats.s1.keywords strats.s1.topic
            let q2 := buildSearchQuery strats.s2.keywords strats.s2.topic
            let searchEvents :=
              [CallEvent.giphySearch q0, CallEvent.giphySearch q1,
               CallEvent.giphySearch q2]
            match searchStage o.search0, searchStage o.search1,
                  searchStage o.search2 with
            | .ok g0, .ok g1, .ok g2 =>
              let events := CallEvent.llm :: searchEvents ++
                rankEvents g0 ++ rankEvents g1 ++ rankEvents g2
              match rankResult strats.s0 g0 o.selection0,
                    rankResult strats.s1 g1 o.selection1,
                    rankResult strats.s2 g2 o.selection2 with
              | .ok a0, .ok a1, .ok a2 =>
                let validGifs := [a0, a1, a2].filterMap id
                if validGifs.length == 0 then
                  (jsonError noGifsMsg 404, events)
                else
                  ({ status := 200, body := .multiGifs validGifs,
                     headers := [] }, events)
              | _, _, _ => (jsonError genericFailMsg 500, events)
            | _, _, _ =>
              (jsonError genericFailMsg 500, CallEvent.llm :: searchEvents)

/-- Local view state of the client form component. -/
structure UiState where
  input : String
  isPending : Bool
deriving Repr, DecidableEq

/-- The payment-aware fetch the form would issue. -/
structure FetchCall where
  url : String
  body : String
deriving Repr, DecidableEq

/-- `handleSubmit` of the client component: the guard
`if (!input.trim() || isPending) return;` blocks the fetch while a
submission is pending or the trimmed input is empty; otherwise one
payment-aware fetch is issued with the raw input as `text`. -/
def handleSubmit (s : UiState) : Option FetchCall :=
  if s.input.trim == "" || s.isPending then none
  else some { url := "/api/generate", body := s.input }

/-! ## Shared concrete fixtures -/

/-- A settlement result authorizing the request to proceed. -/
def okPayment : PaymentResult :=
  { status := 200, responseBody := "", responseHeaders := [] }

/-- A settlement result demanding payment (402, opaque body and headers). -/
def failPayment : PaymentResult :=
  { status := 402, responseBody := "x402-payment-required",
    responseHeaders := [("x-payment-response", "r")] }

/-- A concrete keyword result. -/
def kwFixture : KeywordsResult :=
  { keywords := ["facepalm", "cringe"], topic := none, reasoning := "r" }

/-- A concrete selection result. -/
def selFixture : Selection := { selectedIndex := 0, reasoning := "good fit" }

/-- A concrete Giphy candidate. -/
def gifA : GiphyGif :=
  { title := "a", alt_text := some "alt a", images_original_url := "https://g/a.gif" }

/-- A second concrete Giphy candidate. -/
def gifB : GiphyGif :=
  { title := "b", alt_text := none, images_original_url := "https://g/b.gif" }

/-- A concrete strategy for each perspective. -/
def stratE : Strategy :=
  { keywords := ["joy"], topic := none, perspective := .emotional, reasoning := "e" }

def stratL : Strategy :=
  { keywords := ["waiting"], topic := some "coffee", perspective := .literal,
    reasoning := "l" }

def stratS : Strategy :=
  { keywords := ["slow clap"], topic := none, perspective := .sarcastic,
    reasoning := "s" }

def stratsFixture : StrategiesResult := { s0 := stratE, s1 := stratL, s2 := stratS }

/-! ## Claims -/

/-- Oracles exhibiting the C1 counterexample: the `x-payment` header is
invalid, so settlement returns 402, and the body has no `text` field. -/
def c1Oracles : SingleOracles :=
  { payment := failPayment, bodyParse := .ok .undef,
    keywordsCall := .ok kwFixture, giphyFetch := .okData none,
    selectionCall := .ok selFixture }

/-- C1 counterexample: a request whose `text` is absent and whose payment
settlement fails receives the settlement's 402 passthrough response, not
the claimed 400, so the 400 does not hold regardless of payment state. -/
theorem C1_counterexample :
    textInvalid JsVal.undef = true ∧
    (singlePOST (some "key") c1Oracles).1.status = 402 ∧
    (singlePOST (some "key") c1Oracles).1.status ≠ 400 := by
  refine ⟨rfl, rfl, by decide⟩

/-- C1 (amended): in both route variants, whenever payment settlement
returns 200 and the request body parses as JSON, a `text` field that is
absent, null, or not a string yields HTTP 400 with body
`error: "Text input is required"` and no outbound network call. -/
theorem C1_text_validation (giphyKey : Option String)
    (so : SingleOracles) (mo : MultiOracles) (v w : JsVal)
    (hs : so.payment.status = 200) (hb : so.bodyParse = .ok v)
    (hv : textInvalid v = true)
    (hm : mo.payment.status = 200) (hmb : mo.bodyParse = .ok w)
    (hw : textInvalid w = true) :
    singlePOST giphyKey so = (jsonError textRequiredMsg 400, []) ∧
    multiPOST giphyKey mo = (jsonError textRequiredMsg 400, []) := by
  constructor
  · simp [singlePOST, hs, hb, hv]
  · simp [multiPOST, hm, hmb, hw]

/-- Concrete single-flow oracles with settled payment and a null `text`. -/
def c1wSingle : SingleOracles :=
  { payment := okPayment, bodyParse := .ok .nul,
    keywordsCall := .ok kwFixture, giphyFetch := .okData none,
    selectionCall := .ok selFixture }

/-- Concrete multi-flow oracles with settled payment and a numeric `text`. -/
def c1wMulti : MultiOracles :=
  { payment := okPayment, bodyParse := .ok (.number 7),
    strategiesCall := .ok stratsFixture,
    search0 := .okData none, search1 := .okData none, search2 := .okData none,
    selection0 := .ok selFixture, selection1 := .ok selFixture,
    selection2 := .ok selFixture }

/-- C1 witness: the amended theorem applied at concrete inputs. -/
theorem C1_text_validation_witness :
    singlePOST (some "k") c1wSingle = (jsonError textRequiredMsg 400, []) ∧
    multiPOST (some "k") c1wMulti = (jsonError textRequiredMsg 400, []) :=
  C1_text_validation (some "k") c1wSingle c1wMulti .nul (.number 7)
    rfl rfl rfl rfl rfl rfl

/-- C2: when payment settlement returns a non-200 status, both handlers
respond with exactly the settlement result's status, body, and headers,
and the empty call trace shows that no later pipeline stage (LLM call or
GIF search) runs for that request. -/
theorem C2_payment_passthrough (giphyKey : Option String)
    (so : SingleOracles) (mo : MultiOracles)
    (hs : so.payment.status ≠ 200) (hm : mo.payment.status ≠ 200) :
    singlePOST giphyKey so =
      ({ status := so.payment.status,
         body := .passthrough so.payment.responseBody,
         headers := so.payment.responseHeaders }, []) ∧
    multiPOST giphyKey mo =
      ({ status := mo.payment.status,
         body := .passthrough mo.payment.responseBody,
         headers := mo.payment.responseHeaders }, []) := by
  constructor
  · simp [singlePOST, hs]
  · simp [multiPOST, hm]

/-- Concrete multi-flow oracles with failed settlement. -/
def c2wMulti : MultiOracles :=
  { payment := failPayment, bodyParse := .ok (.strVal "hello"),
    strategiesCall := .ok stratsFixture,
    search0 := .okData none, search1 := .okData none, search2 := .okData none,
    selection0 := .ok selFixture, selection1 := .ok selFixture,
    selection2 := .ok selFixture }

/-- C2 witness: the passthrough theorem applied at a concrete 402
settlement result. -/
theorem C2_payment_passthrough_witness :
    singlePOST (some "k")
      { c1Oracles with bodyParse := .ok (.strVal "hello") } =
      ({ status := 402, body := .passthrough "x402-payment-required",
         headers := [("x-payment-response", "r")] }, []) ∧
    multiPOST (some "k") c2wMulti =
      ({ status := 402, body := .passthrough "x402-payment-required",
         headers := [("x-payment-response", "r")] }, []) :=
  C2_payment_passthrough (some "k")
    { c1Oracles with bodyParse := .ok (.strVal "hello") } c2wMulti
    (by decide) (by decide)

/-- C4: on a non-empty candidate list, `gifs[selectedIndex] || gifs[0]`
uses the candidate at `selectedIndex` when it is in range and falls back
to the candidate at index 0 when `selectedIndex` is at least the list
length. -/
theorem C4_selection_fallback (g : GiphyGif) (gs : List GiphyGif) (idx : Nat) :
    ((g :: gs).length ≤ idx → selectCandidate g gs idx = g) ∧
    (∀ h : idx < (g :: gs).length,
      selectCandidate g gs idx = (g :: gs).get ⟨idx, h⟩) := by
  constructor
  · intro h
    simp [selectCandidate, List.getElem?_eq_none h]
  · intro h
    simp [selectCandidate, List.getElem?_eq_getElem h]

/-- C4 witness: with two candidates, index 5 falls back to the first
candidate and index 1 picks the second. -/
theorem C4_selection_fallback_witness :
    selectCandidate gifA [gifB] 5 = gifA ∧
    selectCandidate gifA [gifB] 1 = gifB :=
  ⟨(C4_selection_fallback gifA [gifB] 5).1 (by decide),
   (C4_selection_fallback gifA [gifB] 1).2 (by decide)⟩

/-- C9: the client form's submit handler never issues the payment-aware
fetch while a prior submission is pending, nor while the trimmed input is
empty. -/
theorem C9_single_flight (s : UiState) :
    (s.isPending = true → handleSubmit s = none) ∧
    (s.input.trim = "" → handleSubmit s = none) := by
  constructor
  · intro h
    simp [handleSubmit, h]
  · intro h
    simp [handleSubmit, h]

/-- C9 witness: submitting while pending issues no fetch. -/
theorem C9_single_flight_witness :
    handleSubmit { input := "hello", isPending := true } = none :=
  (C9_single_flight { input := "hello", isPending := true }).1 rfl

/-- C10: with settled payment, a request body that is not valid JSON makes
both handlers respond 500 with the generic failure body, not 400: the
parse failure is thrown past the text validation into the outermost catch. -/
theorem C10_invalid_json (giphyKey : Option String)
    (so : SingleOracles) (mo : MultiOracles)
    (hs : so.payment.status = 200) (hb : so.bodyParse = .error ())
    (hm : mo.payment.status = 200) (hmb : mo.bodyParse = .error ()) :
    singlePOST giphyKey so = (jsonError genericFailMsg 500, []) ∧
    multiPOST giphyKey mo = (jsonError genericFailMsg 500, []) ∧
    (singlePOST giphyKey so).1.status ≠ 400 ∧
    (multiPOST giphyKey mo).1.status ≠ 400 := by
  have h1 : singlePOST giphyKey so = (jsonError genericFailMsg 500, []) := by
    simp [singlePOST, hs, hb]
  have h2 : multiPOST giphyKey mo = (jsonError genericFailMsg 500, []) := by
    simp [multiPOST, hm, hmb]
  refine ⟨h1, h2, ?_, ?_⟩
  · rw [h1]; decide
  · rw [h2]; decide

/-- Concrete single-flow oracles whose body fails to parse. -/
def c10wSingle : SingleOracles :=
  { payment := okPayment, bodyParse := .error (),
    keywordsCall := .ok kwFixture, giphyFetch := .okData none,
    selectionCall := .ok selFixture }

/-- Concrete multi-flow oracles whose body fails to parse. -/
def c10wMulti : MultiOracles :=
  { payment := okPayment, bodyParse := .error (),
    strategiesCall := .ok stratsFixture,
    search0 := .okData none, search1 := .okData none, search2 := .okData none,
    selection0 := .ok selFixture, selection1 := .ok selFixture,
    selection2 := .ok selFixture }

/-- C10 witness: the invalid-JSON theorem applied at concrete inputs. -/
theorem C10_invalid_json_witness :
    singlePOST (some "k") c10wSingle = (jsonError genericFailMsg 500, []) ∧
    multiPOST (some "k") c10wMulti = (jsonError genericFailMsg 500, []) ∧
    (singlePOST (some "k") c10wSingle).1.status ≠ 400 ∧
    (multiPOST (some "k") c10wMulti).1.status ≠ 400 :=
  C10_invalid_json (some "k") c10wSingle c10wMulti rfl rfl rfl rfl

/-- A strategy whose topic is the empty string: the zod schema
(`z.string().nullable()`) admits it, and the JS truthiness test treats it
like null. -/
def c5Strat : Strategy :=
  { keywords := ["facepalm", "cringe"], topic := some "",
    perspective := .emotional, reasoning := "" }

/-- Multi-flow oracles whose first strategy carries an empty-string topic. -/
def c5Oracles : MultiOracles :=
  { payment := okPayment, bodyParse := .ok (.strVal "hi"),
    strategiesCall := .ok { s0 := c5Strat, s1 := stratL, s2 := stratS },
    search0 := .okData none, search1 := .okData none, search2 := .okData none,
    selection0 := .ok selFixture, selection1 := .ok selFixture,
    selection2 := .ok selFixture }

/-- C5 counterexample: with keywords `["facepalm","cringe"]` and the
non-null topic `""`, the query actually sent to the search API is
`"facepalm cringe"`, not the `"facepalm cringe "` that appending the topic
after a single space would give, so "appended iff the topic is non-null"
fails. -/
theorem C5_counterexample :
    (multiPOST (some "k") c5Oracles).2.get? 1 =
      some (CallEvent.giphySearch "facepalm cringe") ∧
    (multiPOST (some "k") c5Oracles).2.get? 1 ≠
      some (CallEvent.giphySearch "facepalm cringe ") ∧
    buildSearchQuery ["facepalm", "cringe"] (some "") ≠ "facepalm cringe " := by
  refine ⟨rfl, by decide, by decide⟩

/-- C5 (amended): the query for a strategy is its keywords joined by
single spaces, with the topic appended after a single space if and only
if the topic is non-null and non-empty (JS truthiness); and the handler
sends exactly one such query per strategy to the search API. -/
theorem C5_query_construction (kws : List String) (t : String) (k : String)
    (mo : MultiOracles) (v : JsVal) (strats : StrategiesResult)
    (ht : t ≠ "")
    (hm : mo.payment.status = 200) (hmb : mo.bodyParse = .ok v)
    (hw : textInvalid v = false)
    (hstr : mo.strategiesCall = .ok strats)
    (h0 : searchStage mo.search0 = .ok [])
    (h1 : searchStage mo.search1 = .ok [])
    (h2 : searchStage mo.search2 = .ok []) :
    buildSearchQuery kws none = String.intercalate " " kws ∧
    buildSearchQuery kws (some t) = String.intercalate " " kws ++ " " ++ t ∧
    buildSearchQuery kws (some "") = String.intercalate " " kws ∧
    (multiPOST (some k) mo).2 =
      [CallEvent.llm,
       CallEvent.giphySearch (buildSearchQuery strats.s0.keywords strats.s0.topic),
       CallEvent.giphySearch (buildSearchQuery strats.s1.keywords strats.s1.topic),
       CallEvent.giphySearch (buildSearchQuery strats.s2.keywords strats.s2.topic)] := by
  refine ⟨rfl, ?_, rfl, ?_⟩
  · simp [buildSearchQuery, ht]
  · simp [multiPOST, hm, hmb, hw, hstr, h0, h1, h2, rankResult, rankEvents]

/-- Multi-flow oracles reaching the search stage with all-empty results. -/
def c5wMulti : MultiOracles :=
  { payment := okPayment, bodyParse := .ok (.strVal "hi"),
    strategiesCall := .ok stratsFixture,
    search0 := .okData none, search1 := .notOk, search2 := .okData (some []),
    selection0 := .ok selFixture, selection1 := .ok selFixture,
    selection2 := .ok selFixture }

/-- C5 witness: the query-construction theorem applied at the claim's own
example inputs, keywords `["facepalm","cringe"]` and topic `"coding"`. -/
theorem C5_query_construction_witness :
    buildSearchQuery ["facepalm", "cringe"] none = "facepalm cringe" ∧
    buildSearchQuery ["facepalm", "cringe"] (some "coding") =
      "facepalm cringe" ++ " " ++ "coding" ∧
    buildSearchQuery ["facepalm", "cringe"] (some "") = "facepalm cringe" ∧
    (multiPOST (some "k") c5wMulti).2 =
      [CallEvent.llm,
       CallEvent.giphySearch (buildSearchQuery stratE.keywords stratE.topic),
       CallEvent.giphySearch (buildSearchQuery stratL.keywords stratL.topic),
       CallEvent.giphySearch (buildSearchQuery stratS.keywords stratS.topic)] :=
  C5_query_construction ["facepalm", "cringe"] "coding" "k" c5wMulti
    (.strVal "hi") stratsFixture (by decide) rfl rfl rfl rfl rfl rfl rfl

/-- C6: with settled payment and valid text, a single-flow search whose
parsed body has no candidates (absent `data` or an empty array) yields
404 with `"No GIF found"`, and in the multi-flow all three strategies
degrading to zero candidates yields 404 with `"No GIFs found"`. -/
theorem C6_not_found (giphyKey : String) (so : SingleOracles)
    (mo : MultiOracles) (v w : JsVal) (kw : KeywordsResult)
    (strats : StrategiesResult) (d : Option (List GiphyGif))
    (hs : so.payment.status = 200) (hb : so.bodyParse = .ok v)
    (hv : textInvalid v = false) (hk : so.keywordsCall = .ok kw)
    (hf : so.giphyFetch = .okData d) (hd : d = none ∨ d = some [])
    (hm : mo.payment.status = 200) (hmb : mo.bodyParse = .ok w)
    (hw : textInvalid w = false) (hstr : mo.strategiesCall = .ok strats)
    (h0 : searchStage mo.search0 = .ok [])
    (h1 : searchStage mo.search1 = .ok [])
    (h2 : searchStage mo.search2 = .ok []) :
    (singlePOST (some giphyKey) so).1 = jsonError noGifMsg 404 ∧
    (multiPOST (some giphyKey) mo).1 = jsonError noGifsMsg 404 := by
  constructor
  · rcases hd with rfl | rfl
    · simp [singlePOST, hs, hb, hv, hk, hf]
    · simp [singlePOST, hs, hb, hv, hk, hf]
  · simp [multiPOST, hm, hmb, hw, hstr, h0, h1, h2, rankResult, rankEvents]

/-- Single-flow oracles whose search succeeds with an empty `data` array. -/
def c6wSingle : SingleOracles :=
  { payment := okPayment, bodyParse := .ok (.strVal "hi"),
    keywordsCall := .ok kwFixture, giphyFetch := .okData (some []),
    selectionCall := .ok selFixture }

/-- C6 witness: the not-found theorem applied at concrete inputs. -/
theorem C6_not_found_witness :
    (singlePOST (some "k") c6wSingle).1 = jsonError noGifMsg 404 ∧
    (multiPOST (some "k") c5wMulti).1 = jsonError noGifsMsg 404 :=
  C6_not_found "k" c6wSingle c5wMulti (.strVal "hi") (.strVal "hi")
    kwFixture stratsFixture (some [])
    rfl rfl rfl rfl rfl (Or.inr rfl) rfl rfl rfl rfl rfl rfl rfl

/-- Every path of the single-result handler with the Giphy key unset
produces a trace that is empty or a single LLM call: the key check sits
between the keyword LLM call and the search fetch. -/
theorem singlePOST_noKey_trace (o : SingleOracles) :
    (singlePOST none o).2 = [] ∨ (singlePOST none o).2 = [CallEvent.llm] := by
  by_cases hp : o.payment.status = 200
  · rcases hb : o.bodyParse with e | v
    · left; simp [singlePOST, hp, hb]
    · cases hv : textInvalid v
      · rcases hk : o.keywordsCall with e | kw
        · right; simp [singlePOST, hp, hb, hv, hk]
        · right; simp [singlePOST, hp, hb, hv, hk]
      · left; simp [singlePOST, hp, hb, hv]
  · left; simp [singlePOST, hp]

/-- Every path of the multi-strategy handler with the Giphy key unset
produces an empty trace: the key check precedes the strategies LLM call. -/
theorem multiPOST_noKey_trace (o : MultiOracles) :
    (multiPOST none o).2 = [] := by
  by_cases hp : o.payment.status = 200
  · rcases hb : o.bodyParse with e | v
    · simp [multiPOST, hp, hb]
    · cases hv : textInvalid v
      · simp [multiPOST, hp, hb, hv]
      · simp [multiPOST, hp, hb, hv]
  · simp [multiPOST, hp]

/-- Single-flow oracles with settled payment and valid text whose keyword
LLM call throws. -/
def c7Oracles : SingleOracles :=
  { payment := okPayment, bodyParse := .ok (.strVal "hello"),
    keywordsCall := .error (), giphyFetch := .okData none,
    selectionCall := .ok selFixture }

/-- C7 counterexample: with the Giphy key unset, a settled and validated
single-flow request still performs a network call (the keyword LLM call)
before any 500 is produced, and when that call throws the body is the
generic failure message, not `"Giphy API key not configured"` — refuting
both the "before attempting any network call" part and the fixed-body
part of the claim. -/
theorem C7_counterexample :
    (singlePOST none c7Oracles).2 = [CallEvent.llm] ∧
    (singlePOST none c7Oracles).2 ≠ [] ∧
    (singlePOST none c7Oracles).1 = jsonError genericFailMsg 500 ∧
    (singlePOST none c7Oracles).1.body ≠ ResponseBody.errObj giphyKeyMsg := by
  refine ⟨rfl, by decide, rfl, by decide⟩

/-- C7 (amended): with the Giphy key unset, neither variant ever calls the
search API; the multi-strategy handler returns
500 `"Giphy API key not configured"` before any network call, while the
single-result handler first makes the keyword LLM call and returns that
500 body only when the call succeeds. -/
theorem C7_missing_key (so : SingleOracles) (mo : MultiOracles)
    (v w : JsVal) (kw : KeywordsResult)
    (hs : so.payment.status = 200) (hb : so.bodyParse = .ok v)
    (hv : textInvalid v = false) (hk : so.keywordsCall = .ok kw)
    (hm : mo.payment.status = 200) (hmb : mo.bodyParse = .ok w)
    (hw : textInvalid w = false) :
    multiPOST none mo = (jsonError giphyKeyMsg 500, []) ∧
    singlePOST none so = (jsonError giphyKeyMsg 500, [CallEvent.llm]) ∧
    (∀ so2 : SingleOracles, ∀ q : String,
      CallEvent.giphySearch q ∉ (singlePOST none so2).2) ∧
    (∀ mo2 : MultiOracles, ∀ q : String,
      CallEvent.giphySearch q ∉ (multiPOST none mo2).2) := by
  refine ⟨?_, ?_, ?_, ?_⟩
  · simp [multiPOST, hm, hmb, hw]
  · simp [singlePOST, hs, hb, hv, hk]
  · intro so2 q
    rcases singlePOST_noKey_trace so2 with h | h <;> rw [h] <;> simp
  · intro mo2 q
    rw [multiPOST_noKey_trace mo2]
    simp

/-- Single-flow oracles with settled payment, valid text, and a
successful keyword LLM call. -/
def c7wSingle : SingleOracles :=
  { payment := okPayment, bodyParse := .ok (.strVal "hello"),
    keywordsCall := .ok kwFixture, giphyFetch := .okData none,
    selectionCall := .ok selFixture }

/-- Multi-flow oracles with settled payment and valid text. -/
def c7wMulti : MultiOracles :=
  { payment := okPayment, bodyParse := .ok (.strVal "hello"),
    strategiesCall := .ok stratsFixture,
    search0 := .okData none, search1 := .okData none, search2 := .okData none,
    selection0 := .ok selFixture, selection1 := .ok selFixture,
    selection2 := .ok selFixture }

/-- C7 witness: the missing-key theorem applied at concrete inputs. -/
theorem C7_missing_key_witness :
    multiPOST none c7wMulti = (jsonError giphyKeyMsg 500, []) ∧
    singlePOST none c7wSingle = (jsonError giphyKeyMsg 500, [CallEvent.llm]) ∧
    (∀ so2 : SingleOracles, ∀ q : String,
      CallEvent.giphySearch q ∉ (singlePOST none so2).2) ∧
    (∀ mo2 : MultiOracles, ∀ q : String,
      CallEvent.giphySearch q ∉ (multiPOST none mo2).2) :=
  C7_missing_key c7wSingle c7wMulti (.strVal "hello") (.strVal "hello")
    kwFixture rfl rfl rfl rfl rfl rfl rfl

/-- The entries of a 200 multi-strategy response body, when it is one. -/
def bodyGifs : ResponseBody → Option (List MultiGifResult)
  | .multiGifs rs => some rs
  | _ => none

/-- C3: a failed (non-ok) or empty search response degrades a strategy to
zero candidates, and when exactly one of the three strategies yields zero
candidates the multi-strategy handler returns 200 with exactly two
entries, tagged in order with the perspectives of the two surviving
strategies. -/
theorem C3_one_empty_strategy (k : String) (o : MultiOracles) (v : JsVal)
    (strats : StrategiesResult) (g0 g1 g2 : List GiphyGif)
    (sel0 sel1 sel2 : Selection)
    (hp : o.payment.status = 200) (hb : o.bodyParse = .ok v)
    (hv : textInvalid v = false)
    (hstr : o.strategiesCall = .ok strats)
    (h0 : searchStage o.search0 = .ok g0)
    (h1 : searchStage o.search1 = .ok g1)
    (h2 : searchStage o.search2 = .ok g2)
    (hs0 : o.selection0 = .ok sel0) (hs1 : o.selection1 = .ok sel1)
    (hs2 : o.selection2 = .ok sel2)
    (hone : (g0 = [] ∧ g1 ≠ [] ∧ g2 ≠ []) ∨ (g0 ≠ [] ∧ g1 = [] ∧ g2 ≠ []) ∨
      (g0 ≠ [] ∧ g1 ≠ [] ∧ g2 = [])) :
    searchStage GiphyFetchOutcome.notOk = .ok [] ∧
    searchStage (GiphyFetchOutcome.okData none) = .ok [] ∧
    searchStage (GiphyFetchOutcome.okData (some [])) = .ok [] ∧
    (multiPOST (some k) o).1.status = 200 ∧
    ((bodyGifs (multiPOST (some k) o).1.body).getD []).length = 2 ∧
    ((bodyGifs (multiPOST (some k) o).1.body).getD []).map
        (fun r => r.perspective) =
      (if g0 = [] then [strats.s1.perspective, strats.s2.perspective]
       else if g1 = [] then [strats.s0.perspective, strats.s2.perspective]
       else [strats.s0.perspective, strats.s1.perspective]) := by
  refine ⟨rfl, rfl, rfl, ?_⟩
  rcases hone with ⟨he, n1, n2⟩ | ⟨n0, he, n2⟩ | ⟨n0, n1, he⟩
  · subst he
    obtain ⟨b, bs, rfl⟩ := List.exists_cons_of_ne_nil n1
    obtain ⟨c, cs, rfl⟩ := List.exists_cons_of_ne_nil n2
    simp [multiPOST, bodyGifs, hp, hb, hv, hstr, h0, h1, h2, hs0, hs1, hs2,
      rankResult, rankEvents]
  · subst he
    obtain ⟨a, as, rfl⟩ := List.exists_cons_of_ne_nil n0
    obtain ⟨c, cs, rfl⟩ := List.exists_cons_of_ne_nil n2
    simp [multiPOST, bodyGifs, hp, hb, hv, hstr, h0, h1, h2, hs0, hs1, hs2,
      rankResult, rankEvents]
  · subst he
    obtain ⟨a, as, rfl⟩ := List.exists_cons_of_ne_nil n0
    obtain ⟨b, bs, rfl⟩ := List.exists_cons_of_ne_nil n1
    simp [multiPOST, bodyGifs, hp, hb, hv, hstr, h0, h1, h2, hs0, hs1, hs2,
      rankResult, rankEvents]

/-- Multi-flow oracles where exactly the second strategy's search fails
(non-ok response), while the first and third return candidates. -/
def c3wMulti : MultiOracles :=
  { payment := okPayment, bodyParse := .ok (.strVal "hi"),
    strategiesCall := .ok stratsFixture,
    search0 := .okData (some [gifA, gifB]), search1 := .notOk,
    search2 := .okData (some [gifB]),
    selection0 := .ok selFixture, selection1 := .ok selFixture,
    selection2 := .ok selFixture }

/-- C3 witness: with the literal strategy's search failing, the response
is 200 with two entries tagged emotional and sarcastic. -/
theorem C3_one_empty_strategy_witness :
    searchStage GiphyFetchOutcome.notOk = .ok [] ∧
    searchStage (GiphyFetchOutcome.okData none) = .ok [] ∧
    searchStage (GiphyFetchOutcome.okData (some [])) = .ok [] ∧
    (multiPOST (some "k") c3wMulti).1.status = 200 ∧
    ((bodyGifs (multiPOST (some "k") c3wMulti).1.body).getD []).length = 2 ∧
    ((bodyGifs (multiPOST (some "k") c3wMulti).1.body).getD []).map
        (fun r => r.perspective) =
      [Perspective.emotional, Perspective.sarcastic] := by
  exact C3_one_empty_strategy "k" c3wMulti (.strVal "hi") stratsFixture
    [gifA, gifB] [] [gifB] selFixture selFixture selFixture
    rfl rfl rfl rfl rfl rfl rfl rfl rfl rfl
    (Or.inr (Or.inl ⟨by decide, rfl, by decide⟩))

/-- C8: for every request with settled payment and valid text, each
handler's response status is 200, 404, or 500 — every modelled throw from
a collaborator is caught and collapsed to a response, never propagated —
and a 200 carries exactly one result object in the single-result flow and
between 1 and 3 entries (never more than the strategy count) in the
multi-strategy flow. -/
theorem C8_response_totality (giphyKey : Option String)
    (so : SingleOracles) (mo : MultiOracles) (v w : JsVal)
    (hp : so.payment.status = 200) (hb : so.bodyParse = .ok v)
    (hv : textInvalid v = false)
    (hm : mo.payment.status = 200) (hmb : mo.bodyParse = .ok w)
    (hw : textInvalid w = false) :
    ((singlePOST giphyKey so).1.status = 200 ∨
     (singlePOST giphyKey so).1.status = 404 ∨
     (singlePOST giphyKey so).1.status = 500) ∧
    ((singlePOST giphyKey so).1.status = 200 →
      ∃ r, (singlePOST giphyKey so).1.body = ResponseBody.singleGif r) ∧
    ((multiPOST giphyKey mo).1.status = 200 ∨
     (multiPOST giphyKey mo).1.status = 404 ∨
     (multiPOST giphyKey mo).1.status = 500) ∧
    ((multiPOST giphyKey mo).1.status = 200 →
      ∃ rs, (multiPOST giphyKey mo).1.body = ResponseBody.multiGifs rs ∧
        1 ≤ rs.length ∧ rs.length ≤ 3) := by
  have hsingle :
      ((singlePOST giphyKey so).1.status = 200 ∨
       (singlePOST giphyKey so).1.status = 404 ∨
       (singlePOST giphyKey so).1.status = 500) ∧
      ((singlePOST giphyKey so).1.status = 200 →
        ∃ r, (singlePOST giphyKey so).1.body = ResponseBody.singleGif r) := by
    rcases hk : so.keywordsCall with e | kw
    · simp [singlePOST, hp, hb, hv, hk, jsonError]
    · rcases giphyKey with _ | key
      · simp [singlePOST, hp, hb, hv, hk, jsonError]
      · rcases hf : so.giphyFetch with _ | _ | d
        · simp [singlePOST, hp, hb, hv, hk, hf, jsonError]
        · simp [singlePOST, hp, hb, hv, hk, hf, jsonError]
        · rcases d with _ | l
          · simp [singlePOST, hp, hb, hv, hk, hf, jsonError]
          · rcases l with _ | ⟨g, gs⟩
            · simp [singlePOST, hp, hb, hv, hk, hf, jsonError]
            · rcases hsel : so.selectionCall with e | sel
              · simp [singlePOST, hp, hb, hv, hk, hf, hsel, jsonError]
              · simp [singlePOST, hp, hb, hv, hk, hf, hsel, jsonError]
  have hmulti :
      ((multiPOST giphyKey mo).1.status = 200 ∨
       (multiPOST giphyKey mo).1.status = 404 ∨
       (multiPOST giphyKey mo).1.status = 500) ∧
      ((multiPOST giphyKey mo).1.status = 200 →
        ∃ rs, (multiPOST giphyKey mo).1.body = ResponseBody.multiGifs rs ∧
          1 ≤ rs.length ∧ rs.length ≤ 3) := by
    rcases giphyKey with _ | key
    · simp [multiPOST, hm, hmb, hw, jsonError]
    · rcases hstr : mo.strategiesCall with e | strats
      · simp [multiPOST, hm, hmb, hw, hstr, jsonError]
      · rcases hs0 : searchStage mo.search0 with e | g0
        · simp [multiPOST, hm, hmb, hw, hstr, hs0, jsonError]
        · rcases hs1 : searchStage mo.search1 with e | g1
          · simp [multiPOST, hm, hmb, hw, hstr, hs0, hs1, jsonError]
          · rcases hs2 : searchStage mo.search2 with e | g2
            · simp [multiPOST, hm, hmb, hw, hstr, hs0, hs1, hs2, jsonError]
            · rcases hr0 : rankResult strats.s0 g0 mo.selection0 with e | a0
              · simp [multiPOST, hm, hmb, hw, hstr, hs0, hs1, hs2, hr0,
                  jsonError]
              · rcases hr1 : rankResult strats.s1 g1 mo.selection1 with e | a1
                · simp [multiPOST, hm, hmb, hw, hstr, hs0, hs1, hs2, hr0, hr1,
                    jsonError]
                · rcases hr2 : rankResult strats.s2 g2 mo.selection2
                    with e | a2
                  · simp [multiPOST, hm, hmb, hw, hstr, hs0, hs1, hs2, hr0,
                      hr1, hr2, jsonError]
                  · rcases a0 with _ | r0 <;> rcases a1 with _ | r1 <;>
                      rcases a2 with _ | r2 <;>
                      simp [multiPOST, hm, hmb, hw, hstr, hs0, hs1, hs2, hr0,
                        hr1, hr2, jsonError]
  exact ⟨hsingle.1, hsingle.2, hmulti.1, hmulti.2⟩

/-- Single-flow oracles with a fully successful pipeline. -/
def c8wSingle : SingleOracles :=
  { payment := okPayment, bodyParse := .ok (.strVal "hello"),
    keywordsCall := .ok kwFixture, giphyFetch := .okData (some [gifA, gifB]),
    selectionCall := .ok selFixture }

/-- C8 witness: the totality theorem applied at concrete inputs. -/
theorem C8_response_totality_witness :
    ((singlePOST (some "k") c8wSingle).1.status = 200 ∨
     (singlePOST (some "k") c8wSingle).1.status = 404 ∨
     (singlePOST (some "k") c8wSingle).1.status = 500) ∧
    ((singlePOST (some "k") c8wSingle).1.status = 200 →
      ∃ r, (singlePOST (some "k") c8wSingle).1.body =
        ResponseBody.singleGif r) ∧
    ((multiPOST (some "k") c3wMulti).1.status = 200 ∨
     (multiPOST (some "k") c3wMulti).1.status = 404 ∨
     (multiPOST (some "k") c3wMulti).1.status = 500) ∧
    ((multiPOST (some "k") c3wMulti).1.status = 200 →
      ∃ rs, (multiPOST (some "k") c3wMulti).1.body =
        ResponseBody.multiGifs rs ∧ 1 ≤ rs.length ∧ rs.length ≤ 3) :=
  C8_response_totality (some "k") c8wSingle c3wMulti
    (.strVal "hello") (.strVal "hi") rfl rfl rfl rfl rfl rfl
